import Mathlib

/-!
Shallow embedding of the WebDAV synchronization engine of quick-prompt
(source: the WebDAVIntegration component), together with theorems settling
the specification claims about it.

The component's operations — `testWebDAVConnection`, `handleSyncToWebDAV`
(push), `syncFromWebDAV` (pull in replace or append mode) and the polling
tick of `startSyncStatusPolling` — are translated into pure Lean functions.
JavaScript effects become explicit data: the browser storage slots touched
by the engine are a `LocalStore` record, the React `currentSyncId` state is
a field of `UiState`, each `fetch` outcome is supplied as a `FetchOutcome`
value, and the observable side effects of one invocation are returned as a
list of `Event`s in document order.  The JSON values held in the storage
slots and in the downloaded document are modelled by `JVal`, with the
JavaScript truthiness and `Array.isArray` tests made explicit; `Option JVal`
models a possibly-absent (`undefined`) field.  `JSON.stringify`/`response.json()`
round-tripping is treated as exact, and the parsed body of a response is
supplied directly inside `FetchOutcome.response`.  Timestamps (`Date.now()`,
`exportedAt`) and the generated sync identifier are passed in as parameters.
-/

namespace QuickPrompt

/-- A prompt or category record: the engine inspects only its `id` field
(source merge code reads `p.id` / `c.id`); everything else is opaque and
collapsed into `payload`. -/
structure Entry where
  id : String
  payload : String
deriving DecidableEq, Repr

/-- A JavaScript value as far as the engine can distinguish one: an array of
opaque records, or a non-array primitive.  Objects other than arrays are not
produced by the engine and are not needed by the claims. -/
inductive JVal where
  | arr (xs : List Entry)
  | str (s : String)
  | num (n : Int)
  | jbool (b : Bool)
  | jnull
deriving DecidableEq, Repr

/-- JavaScript truthiness of a `JVal` (arrays are always truthy). -/
def jtruthy : JVal → Bool
  | .arr _ => true
  | .str s => s ≠ ""
  | .num n => n ≠ 0
  | .jbool b => b
  | .jnull => false

/-- `Array.isArray`. -/
def jisArray : JVal → Bool
  | .arr _ => true
  | _ => false

/-- JavaScript `x || []` applied to a possibly-`undefined` value, as in
`result[BROWSER_STORAGE_KEY] || []` and `syncData.categories || []`. -/
def jorEmpty : Option JVal → JVal
  | some w => if jtruthy w then w else .arr []
  | none => .arr []

/-- The ids of the entries of a stored collection value; `[]` when the slot
is absent or does not hold an array. -/
def storedIds : Option JVal → List String
  | some (.arr xs) => xs.map Entry.id
  | _ => []

/-- The wire document (`syncData`): `version`/`exportedAt` as written by the
push path, `prompts`/`categories` as found by the pull path (either may be
absent in a downloaded document). -/
structure SyncDoc where
  version : Option Int := some 1
  exportedAt : Option String := none
  prompts : Option JVal := none
  categories : Option JVal := none
deriving DecidableEq, Repr

/-- Lifecycle phase of a sync status record. -/
inductive SyncPhase where
  | in_progress
  | success
  | error
deriving DecidableEq, Repr

/-- A SyncStatus record as written to browser storage.  The `startTime` /
`completedTime` fields of the source interface are wall-clock values never
read back by the engine and are omitted. -/
structure SyncStatus where
  id : String
  status : SyncPhase
  message : Option String := none
deriving DecidableEq, Repr

/-- The browser-storage slots the engine reads and writes:
`prompts`/`categories` are the collection slots (`BROWSER_STORAGE_KEY`,
`CATEGORIES_STORAGE_KEY`), `pushStatus` is the `webdav_sync_status` record
and `pullStatus` the `webdav_from_sync_status` record.  `none` models an
absent key. -/
structure LocalStore where
  prompts : Option JVal := none
  categories : Option JVal := none
  pushStatus : Option SyncStatus := none
  pullStatus : Option SyncStatus := none
deriving DecidableEq, Repr

/-- The state visible to one invocation: the storage plus the component's
`currentSyncId` React state (the in-flight guard variable). -/
structure UiState where
  store : LocalStore := {}
  currentSyncId : Option String := none
deriving DecidableEq, Repr

/-- WebDAV credentials and sync path as held by the component's state. -/
structure Config where
  serverUrl : String
  username : String
  password : String
  syncPath : String := "/quick-prompt/prompts.json"
deriving DecidableEq, Repr

/-- Outcome of one `fetch` call: an HTTP response with its status code and
(for GET) its parsed JSON body, or a network-level failure carrying the
thrown error's message. -/
inductive FetchOutcome where
  | response (status : Nat) (body : SyncDoc)
  | failure (msg : String)
deriving DecidableEq, Repr

/-- `response.ok`: status in the 2xx range. -/
def respOk (status : Nat) : Bool := 200 ≤ status && status ≤ 299

/-- Result of `testWebDAVConnection`: the source returns
`{ success: boolean; error?: string }`. -/
structure TestConnResult where
  success : Bool
  error : Option String := none
deriving DecidableEq, Repr

/-- `testWebDAVConnection` (source lines 169-206): a PROPFIND is issued with
the given credentials and the response is classified.  `response.ok` or 207
yields success; 401 yields the localized auth-failure text; any other status
yields the connection-failure text carrying the status code; a thrown
network error yields `error.message`, falling back to the generic text when
that message is empty.  Localized strings are modelled by their i18n keys. -/
def testWebDAVConnection (_url _user _pass : String) (out : FetchOutcome) :
    TestConnResult :=
  match out with
  | .response st _ =>
      if respOk st || st == 207 then
        { success := true }
      else if st == 401 then
        { success := false, error := some "webdavAuthFailed" }
      else
        { success := false, error := some ("webdavConnectionFailed: " ++ toString st) }
  | .failure m =>
      { success := false, error := some (if m = "" then "testConnectionError" else m) }

/-- An observable side effect of one sync invocation, in the order it is
performed: a network request (with the uploaded document attached to PUT),
a SyncStatus write to a direction key, a write of the two collection slots,
or a toast record persisted by `showMessage` (only `success` and `error`
messages are persisted by the source; `info` messages touch no storage). -/
inductive Event where
  | netRequest (method : String) (url : String) (body : Option SyncDoc)
  | statusWrite (key : String) (st : SyncStatus)
  | dataWrite (promptsVal : JVal) (categoriesVal : JVal)
  | toast (kind : String) (text : String)
deriving DecidableEq, Repr

/-- Storage key of the push-direction status record. -/
def pushStatusKey : String := "webdav_sync_status"

/-- Storage key of the pull-direction status record. -/
def pullStatusKey : String := "webdav_from_sync_status"

/-- Is any of the three credentials empty (`!serverUrl || !username ||
!password`)?  The sync path is not checked by the source. -/
def credentialsMissing (cfg : Config) : Bool :=
  cfg.serverUrl == "" || cfg.username == "" || cfg.password == ""

/-- `serverUrl.replace(/\/$/, '')`: drop one trailing slash. -/
def stripTrailingSlash (s : String) : String :=
  if s.endsWith "/" then s.dropRight 1 else s

/-- `syncPath.substring(0, syncPath.lastIndexOf('/'))`: the parent directory
of the sync path, `""` when the path contains no slash. -/
def dirPathOf (p : String) : String :=
  let cs := p.toList
  match ((List.range cs.length).filter fun i => cs.getD i ' ' == '/').getLast? with
  | some i => String.mk (cs.take i)
  | none => ""

/-- Kind of error carried by a failed sync operation.  The source throws
`Error` objects; each constructor corresponds to one `throw` site (or to the
`TypeError` JavaScript raises when `.map`/`.filter` is applied to a
non-array collection value in append mode), and `syncErrMsg` recovers the
thrown message. -/
inductive SyncErr where
  | fileNotFound
  | httpError (code : Nat)
  | invalidDataFormat
  | typeError
  | network (msg : String)
deriving DecidableEq, Repr

/-- The message of a thrown sync error (i18n keys stand for the localized
texts). -/
def syncErrMsg : SyncErr → String
  | .fileNotFound => "webdavFileNotFound"
  | .httpError c => "HTTP " ++ toString c
  | .invalidDataFormat => "invalidWebDAVDataFormat"
  | .typeError => "TypeError"
  | .network m => m

/-- What one sync invocation reports back. -/
inductive SyncResult where
  | notConfigured
  | alreadyRunning
  | completed
  | failed (e : SyncErr)
deriving DecidableEq, Repr

/-- One invocation's outcome: the state after it returns, the side effects
it performed in order, and what it reported. -/
structure RunOutcome where
  state : UiState
  events : List Event
  result : SyncResult
deriving DecidableEq, Repr

/-- The `in_progress` record the push path writes before uploading. -/
def pushInProgressRecord (syncId : String) : SyncStatus :=
  { id := syncId, status := .in_progress, message := some "syncingToWebDAVMessage" }

/-- The state observable while the push's PUT (or MKCOL) is awaited: the
`in_progress` record has been written under `webdav_sync_status`, and
`currentSyncId` is unchanged — the source sets it only inside
`startSyncStatusPolling`, which runs after the upload has completed. -/
def pushMidState (s : UiState) (syncId : String) : UiState :=
  { s with store := { s.store with pushStatus := some (pushInProgressRecord syncId) } }

/-- The `success` record the push path writes after an accepted upload. -/
def pushSuccessRecord (syncId : String) : SyncStatus :=
  { id := syncId, status := .success, message := some "syncToWebDAVSuccess" }

/-- Did the PUT succeed (`response.ok || status === 201 || status === 204`)?
A network-level failure is a thrown error, hence not a success. -/
def putAccepted : FetchOutcome → Bool
  | .response st _ => respOk st || st == 201 || st == 204
  | .failure _ => false

/-- The message of the error thrown on a failed PUT: `HTTP ${status}` for a
non-accepted response, the transport error's own message otherwise. -/
def putErrMsg : FetchOutcome → String
  | .response st _ => "HTTP " ++ toString st
  | .failure m => m

/-- The document built by the push path:
`{ version: 1, exportedAt, prompts, categories }` with each collection read
from storage through `|| []`. -/
def uploadedDoc (s : UiState) (exportedAt : String) : SyncDoc :=
  { version := some 1
    exportedAt := some exportedAt
    prompts := some (jorEmpty s.store.prompts)
    categories := some (jorEmpty s.store.categories) }

/-- Environment of one push: the outcomes of the MKCOL and PUT fetches.  The
MKCOL outcome is never inspected (its errors are swallowed by the source). -/
structure PushEnv where
  mkcolOutcome : FetchOutcome := .response 201 {}
  putOutcome : FetchOutcome
deriving DecidableEq, Repr

/-- `handleSyncToWebDAV` (source lines 254-339).  Guards: incomplete
credentials are rejected with an error toast; a non-null `currentSyncId` is
rejected with an `info` message (not persisted, hence no event).  Otherwise
the path writes the `in_progress` record, reads the collections, builds the
document, best-effort MKCOLs the parent directory when it is nonempty, PUTs
the document, and on an accepted response writes the `success` record and
enters polling (which sets `currentSyncId`); on any thrown error it only
shows an error toast and resets `currentSyncId` to null. -/
def handleSyncToWebDAV (cfg : Config) (s : UiState) (syncId : String)
    (exportedAt : String) (env : PushEnv) : RunOutcome :=
  if credentialsMissing cfg then
    { state := s, events := [.toast "error" "webdavNotConfigured"],
      result := .notConfigured }
  else if s.currentSyncId.isSome then
    { state := s, events := [], result := .alreadyRunning }
  else
    let s1 := pushMidState s syncId
    let doc := uploadedDoc s1 exportedAt
    let base := stripTrailingSlash cfg.serverUrl
    let dir := dirPathOf cfg.syncPath
    let mkcolEvents : List Event :=
      if dir = "" then [] else [.netRequest "MKCOL" (base ++ dir) none]
    let ev0 : List Event :=
      .statusWrite pushStatusKey (pushInProgressRecord syncId) ::
        mkcolEvents ++ [.netRequest "PUT" (base ++ cfg.syncPath) (some doc)]
    if putAccepted env.putOutcome then
      { state := { store := { s1.store with pushStatus := some (pushSuccessRecord syncId) },
                   currentSyncId := some syncId }
        events := ev0 ++ [.statusWrite pushStatusKey (pushSuccessRecord syncId),
          .toast "success" "syncToWebDAVSuccess"]
        result := .completed }
    else
      { state := { store := s1.store, currentSyncId := none }
        events := ev0 ++
          [.toast "error" ("syncToWebDAVFailed: " ++ putErrMsg env.putOutcome)]
        result := .failed (match env.putOutcome with
          | .response st _ => .httpError st
          | .failure m => .network m) }

/-- Pull merge mode. -/
inductive MergeMode where
  | replace
  | append
deriving DecidableEq, Repr

/-- The append-mode merge (source lines 411-419): keep the local entries,
then append the remote entries whose id is not among the local ids, in
remote order.  The source collects local ids in a `Set` and filters with
`has`; the `Set` is modelled by the id list with `contains`. -/
def mergeById (localEntries remote : List Entry) : List Entry :=
  let localIds := localEntries.map Entry.id
  localEntries ++ remote.filter fun e => !(localIds.contains e.id)

/-- The `in_progress` record the pull path writes before downloading. -/
def pullInProgressRecord (mode : MergeMode) (syncId : String) : SyncStatus :=
  { id := syncId, status := .in_progress
    message := some (match mode with
      | .replace => "syncingFromWebDAVOverwriteMessage"
      | .append => "syncingFromWebDAVAppendMessage") }

/-- The `success` record the pull path writes after storing the data. -/
def pullSuccessRecord (syncId : String) : SyncStatus :=
  { id := syncId, status := .success, message := some "syncFromWebDAVSuccess" }

/-- `syncFromWebDAV` (source lines 351-448).  Guards as in the push path.
Then: write the `in_progress` record under `webdav_from_sync_status`, GET
the document; a non-ok response throws (404 distinctly, otherwise
`HTTP ${status}`); a body whose `prompts` is falsy or not an array throws
the invalid-format error (arrays being truthy, this is exactly: `prompts`
is not `some` array).  In replace mode the collections are overwritten with
`prompts` and `categories || []`; in append mode the local collections
(read through `|| []`) are merged by id — JavaScript raises a `TypeError`
there when a collection value is not an array.  Success writes the data,
the `success` record, a success toast, and enters polling (setting
`currentSyncId`); any thrown error only produces an error toast and resets
`currentSyncId` to null. -/
def syncFromWebDAV (cfg : Config) (s : UiState) (mode : MergeMode)
    (syncId : String) (getOutcome : FetchOutcome) : RunOutcome :=
  if credentialsMissing cfg then
    { state := s, events := [.toast "error" "webdavNotConfigured"],
      result := .notConfigured }
  else if s.currentSyncId.isSome then
    { state := s, events := [], result := .alreadyRunning }
  else
    let rec0 := pullInProgressRecord mode syncId
    let s1 : UiState := { s with store := { s.store with pullStatus := some rec0 } }
    let base := stripTrailingSlash cfg.serverUrl
    let ev0 : List Event :=
      [.statusWrite pullStatusKey rec0,
       .netRequest "GET" (base ++ cfg.syncPath) none]
    let fail : SyncErr → RunOutcome := fun e =>
      { state := { store := s1.store, currentSyncId := none }
        events := ev0 ++ [.toast "error" ("syncFromWebDAVFailed: " ++ syncErrMsg e)]
        result := .failed e }
    let finish : JVal → JVal → RunOutcome := fun newP newC =>
      { state := { store := { s1.store with
                    prompts := some newP
                    categories := some newC
                    pullStatus := some (pullSuccessRecord syncId) }
                   currentSyncId := some syncId }
        events := ev0 ++ [.dataWrite newP newC,
          .statusWrite pullStatusKey (pullSuccessRecord syncId),
          .toast "success" "syncFromWebDAVSuccess"]
        result := .completed }
    match getOutcome with
    | .failure m => fail (.network m)
    | .response st body =>
        if !(respOk st) then
          if st == 404 then fail .fileNotFound else fail (.httpError st)
        else
          match body.prompts with
          | some (.arr remoteP) =>
              match mode with
              | .replace => finish (.arr remoteP) (jorEmpty body.categories)
              | .append =>
                  match jorEmpty s1.store.prompts, jorEmpty s1.store.categories,
                      jorEmpty body.categories with
                  | .arr localP, .arr localC, .arr remoteC =>
                      finish (.arr (mergeById localP remoteP))
                        (.arr (mergeById localC remoteC))
                  | _, _, _ => fail .typeError
          | _ => fail .invalidDataFormat

/-- One tick of the interval started by `startSyncStatusPolling` (source
lines 220-250), watching the record under `key` for `syncId`: while the
record exists with a matching id and status `in_progress` nothing changes;
a terminal status, a superseded id or a missing record stops the polling
and clears `currentSyncId`. -/
def pollTick (s : UiState) (key : String) (syncId : String) : UiState :=
  let record := if key == pushStatusKey then s.store.pushStatus else s.store.pullStatus
  match record with
  | some st =>
      if st.id == syncId && st.status == .in_progress then s
      else { s with currentSyncId := none }
  | none => { s with currentSyncId := none }

/-- Does the event list contain any network request? -/
def issuesNetRequest (evs : List Event) : Bool :=
  evs.any fun e => match e with
    | .netRequest _ _ _ => true
    | _ => false

/-- Does the event list write any status record under `key`? -/
def writesStatusUnder (evs : List Event) (key : String) : Bool :=
  evs.any fun e => match e with
    | .statusWrite k _ => k == key
    | _ => false

/-- Does the event list write a status record with phase `ph` under `key`? -/
def writesPhaseUnder (evs : List Event) (key : String) (ph : SyncPhase) : Bool :=
  evs.any fun e => match e with
    | .statusWrite k st => k == key && st.status == ph
    | _ => false

/-- A concrete, fully-populated configuration used by the concrete runs
below. -/
def exampleCfg : Config :=
  { serverUrl := "https://dav.example.com", username := "alice", password := "secret" }

/-- `List.contains` is the decision procedure for membership. -/
lemma contains_eq_decide_mem (ids : List String) (a : String) :
    ids.contains a = decide (a ∈ ids) := by
  simp [List.elem_eq_mem]

/-- The source's `Set`-based duplicate test agrees with plain list
membership: `mergeById` keeps exactly the remote entries whose id is not
among the local ids. -/
lemma mergeById_eq_filter (l r : List Entry) :
    mergeById l r = l ++ r.filter fun e => decide (e.id ∉ l.map Entry.id) := by
  simp only [mergeById]
  refine congrArg (l ++ ·) (List.filter_congr fun e _ => ?_)
  rw [contains_eq_decide_mem, decide_not]

/-- If the local ids and the remote ids are each duplicate-free, so are the
ids of the append merge. -/
lemma mergeById_nodup (l r : List Entry)
    (hl : (l.map Entry.id).Nodup) (hr : (r.map Entry.id).Nodup) :
    ((mergeById l r).map Entry.id).Nodup := by
  simp only [mergeById]
  rw [List.map_append, List.nodup_append]
  refine ⟨hl, hr.sublist ((List.filter_sublist r).map _), ?_⟩
  intro a ha hb
  rcases List.mem_map.1 hb with ⟨e, he, rfl⟩
  rcases List.mem_filter.1 he with ⟨-, hf⟩
  rw [contains_eq_decide_mem] at hf
  simp only [Bool.not_eq_true', decide_eq_false_iff_not] at hf
  exact hf ha

/-- Reduction of a pull in append mode whose guards pass, whose GET response
is ok, and whose document and local collections are all arrays. -/
lemma syncFromWebDAV_append_run (cfg : Config) (s : UiState) (sid : String)
    (st : Nat) (doc : SyncDoc) (lp lc rp rc : List Entry)
    (hcfg : credentialsMissing cfg = false)
    (hidle : s.currentSyncId = none)
    (hok : respOk st = true)
    (hlp : s.store.prompts = some (.arr lp))
    (hlc : s.store.categories = some (.arr lc))
    (hrp : doc.prompts = some (.arr rp))
    (hrc : jorEmpty doc.categories = .arr rc) :
    (syncFromWebDAV cfg s .append sid (.response st doc)).result = .completed ∧
    (syncFromWebDAV cfg s .append sid (.response st doc)).state.store.prompts
      = some (.arr (mergeById lp rp)) ∧
    (syncFromWebDAV cfg s .append sid (.response st doc)).state.store.categories
      = some (.arr (mergeById lc rc)) := by
  have h1 : jorEmpty (some (JVal.arr lp)) = .arr lp := rfl
  have h2 : jorEmpty (some (JVal.arr lc)) = .arr lc := rfl
  simp [syncFromWebDAV, hcfg, hidle, hok, hlp, hlc, hrp, hrc, h1, h2]

/-- Reduction of a pull in replace mode whose guards pass, whose GET
response is ok, and whose document carries an array `prompts`. -/
lemma syncFromWebDAV_replace_run (cfg : Config) (s : UiState) (sid : String)
    (st : Nat) (doc : SyncDoc) (rp : List Entry)
    (hcfg : credentialsMissing cfg = false)
    (hidle : s.currentSyncId = none)
    (hok : respOk st = true)
    (hrp : doc.prompts = some (.arr rp)) :
    (syncFromWebDAV cfg s .replace sid (.response st doc)).result = .completed ∧
    (syncFromWebDAV cfg s .replace sid (.response st doc)).state.store.prompts
      = some (.arr rp) ∧
    (syncFromWebDAV cfg s .replace sid (.response st doc)).state.store.categories
      = some (jorEmpty doc.categories) := by
  simp [syncFromWebDAV, hcfg, hidle, hok, hrp]

/-- A concrete local state for witnesses: prompts with ids `a`, `b`, one
category with id `k`. -/
def exampleLocalState : UiState :=
  { store := { prompts := some (.arr [⟨"a", "pa"⟩, ⟨"b", "pb"⟩])
               categories := some (.arr [⟨"k", "ck"⟩]) } }

/-- A concrete downloaded document for witnesses: prompts with ids `b`, `c`
(id `b` colliding with the local entry), categories `k`, `m`. -/
def exampleDoc : SyncDoc :=
  { prompts := some (.arr [⟨"b", "pb2"⟩, ⟨"c", "pc"⟩])
    categories := some (.arr [⟨"k", "ck2"⟩, ⟨"m", "cm"⟩]) }

/-- C1: for all local prompts and categories lists and every downloaded
document accepted by a pull in append mode, the resulting prompts are the
local entries, verbatim and unreordered, followed by exactly the downloaded
entries whose id does not occur among the local ids, in their document
order; the same policy holds for categories, the document's categories
defaulting to the empty sequence when absent. -/
theorem appendMergePolicy (cfg : Config) (s : UiState) (sid : String)
    (st : Nat) (doc : SyncDoc) (lp lc rp rc : List Entry)
    (hcfg : credentialsMissing cfg = false)
    (hidle : s.currentSyncId = none)
    (hok : respOk st = true)
    (hlp : s.store.prompts = some (.arr lp))
    (hlc : s.store.categories = some (.arr lc))
    (hrp : doc.prompts = some (.arr rp))
    (hrc : doc.categories = some (.arr rc) ∨ (doc.categories = none ∧ rc = [])) :
    (syncFromWebDAV cfg s .append sid (.response st doc)).result = .completed ∧
    (syncFromWebDAV cfg s .append sid (.response st doc)).state.store.prompts
      = some (.arr (lp ++ rp.filter fun e => decide (e.id ∉ lp.map Entry.id))) ∧
    (syncFromWebDAV cfg s .append sid (.response st doc)).state.store.categories
      = some (.arr (lc ++ rc.filter fun e => decide (e.id ∉ lc.map Entry.id))) := by
  have hrc' : jorEmpty doc.categories = .arr rc := by
    rcases hrc with h | ⟨h, rfl⟩ <;> simp [h, jorEmpty, jtruthy]
  have h := syncFromWebDAV_append_run cfg s sid st doc lp lc rp rc
    hcfg hidle hok hlp hlc hrp hrc'
  rw [mergeById_eq_filter, mergeById_eq_filter] at h
  exact h

/-- Witness for `appendMergePolicy` at the spec's own example: local ids
`a`, `b`, downloaded ids `b`, `c`; the merge yields `a`, `b`, `c` with the
local payloads kept. -/
theorem appendMergePolicyWitness :
    credentialsMissing exampleCfg = false ∧
    exampleLocalState.currentSyncId = none ∧
    respOk 200 = true ∧
    (syncFromWebDAV exampleCfg exampleLocalState .append "sync_1"
        (.response 200 exampleDoc)).state.store.prompts
      = some (.arr ([⟨"a", "pa"⟩, ⟨"b", "pb"⟩] ++
          ([⟨"b", "pb2"⟩, ⟨"c", "pc"⟩] : List Entry).filter fun e =>
            decide (e.id ∉ ([⟨"a", "pa"⟩, ⟨"b", "pb"⟩] : List Entry).map Entry.id))) :=
  ⟨by decide, rfl, by decide,
    (appendMergePolicy exampleCfg exampleLocalState "sync_1" 200 exampleDoc
      [⟨"a", "pa"⟩, ⟨"b", "pb"⟩] [⟨"k", "ck"⟩] [⟨"b", "pb2"⟩, ⟨"c", "pc"⟩]
      [⟨"k", "ck2"⟩, ⟨"m", "cm"⟩]
      (by decide) rfl (by decide) rfl rfl rfl (Or.inl rfl)).2.1⟩

/-- C4: a pull in replace mode whose download succeeds and validates leaves
the local prompts exactly equal to the document's prompts and the local
categories equal to the document's categories, defaulting to the empty
sequence when the document omits them. -/
theorem replaceModeOverwritesCollections (cfg : Config) (s : UiState)
    (sid : String) (st : Nat) (doc : SyncDoc) (rp rc : List Entry)
    (hcfg : credentialsMissing cfg = false)
    (hidle : s.currentSyncId = none)
    (hok : respOk st = true)
    (hrp : doc.prompts = some (.arr rp))
    (hrc : doc.categories = some (.arr rc) ∨ (doc.categories = none ∧ rc = [])) :
    (syncFromWebDAV cfg s .replace sid (.response st doc)).result = .completed ∧
    (syncFromWebDAV cfg s .replace sid (.response st doc)).state.store.prompts
      = some (.arr rp) ∧
    (syncFromWebDAV cfg s .replace sid (.response st doc)).state.store.categories
      = some (.arr rc) := by
  have hrc' : jorEmpty doc.categories = .arr rc := by
    rcases hrc with h | ⟨h, rfl⟩ <;> simp [h, jorEmpty, jtruthy]
  have h := syncFromWebDAV_replace_run cfg s sid st doc rp hcfg hidle hok hrp
  rw [hrc'] at h
  exact h

/-- Witness for `replaceModeOverwritesCollections`: replacing the example
local state with the example document stores the document's collections. -/
theorem replaceModeOverwritesCollectionsWitness :
    credentialsMissing exampleCfg = false ∧
    exampleLocalState.currentSyncId = none ∧
    respOk 200 = true ∧
    (syncFromWebDAV exampleCfg exampleLocalState .replace "sync_1"
        (.response 200 exampleDoc)).state.store.prompts
      = some (.arr [⟨"b", "pb2"⟩, ⟨"c", "pc"⟩]) ∧
    (syncFromWebDAV exampleCfg exampleLocalState .replace "sync_1"
        (.response 200 exampleDoc)).state.store.categories
      = some (.arr [⟨"k", "ck2"⟩, ⟨"m", "cm"⟩]) :=
  ⟨by decide, rfl, by decide,
    (replaceModeOverwritesCollections exampleCfg exampleLocalState "sync_1" 200
      exampleDoc [⟨"b", "pb2"⟩, ⟨"c", "pc"⟩] [⟨"k", "ck2"⟩, ⟨"m", "cm"⟩]
      (by decide) rfl (by decide) rfl (Or.inl rfl)).2.1,
    (replaceModeOverwritesCollections exampleCfg exampleLocalState "sync_1" 200
      exampleDoc [⟨"b", "pb2"⟩, ⟨"c", "pc"⟩] [⟨"k", "ck2"⟩, ⟨"m", "cm"⟩]
      (by decide) rfl (by decide) rfl (Or.inl rfl)).2.2⟩

/-- C10: only `prompts` is validated: a downloaded document whose
`categories` is present, truthy and not an array is accepted by a replace
pull, and that non-array value is stored verbatim as the local categories
collection. -/
theorem categoriesFieldNotValidated (cfg : Config) (s : UiState)
    (sid : String) (st : Nat) (doc : SyncDoc) (rp : List Entry) (v : JVal)
    (hcfg : credentialsMissing cfg = false)
    (hidle : s.currentSyncId = none)
    (hok : respOk st = true)
    (hrp : doc.prompts = some (.arr rp))
    (hv : doc.categories = some v)
    (htruthy : jtruthy v = true)
    (hnotarr : jisArray v = false) :
    (syncFromWebDAV cfg s .replace sid (.response st doc)).result = .completed ∧
    (syncFromWebDAV cfg s .replace sid (.response st doc)).state.store.categories
      = some v := by
  have h := syncFromWebDAV_replace_run cfg s sid st doc rp hcfg hidle hok hrp
  have hv' : jorEmpty doc.categories = v := by simp [hv, jorEmpty, htruthy]
  rw [hv'] at h
  exact ⟨h.1, h.2.2⟩

/-- Witness for `categoriesFieldNotValidated`: a document whose categories
field is the string `"oops"` is accepted and the string is stored. -/
theorem categoriesFieldNotValidatedWitness :
    credentialsMissing exampleCfg = false ∧
    jtruthy (.str "oops") = true ∧
    jisArray (.str "oops") = false ∧
    (syncFromWebDAV exampleCfg exampleLocalState .replace "sync_1"
        (.response 200 { prompts := some (.arr [⟨"c", "pc"⟩])
                         categories := some (.str "oops") })).result = .completed ∧
    (syncFromWebDAV exampleCfg exampleLocalState .replace "sync_1"
        (.response 200 { prompts := some (.arr [⟨"c", "pc"⟩])
                         categories := some (.str "oops") })).state.store.categories
      = some (.str "oops") :=
  ⟨by decide, by decide, by decide,
    (categoriesFieldNotValidated exampleCfg exampleLocalState "sync_1" 200
      { prompts := some (.arr [⟨"c", "pc"⟩]), categories := some (.str "oops") }
      [⟨"c", "pc"⟩] (.str "oops")
      (by decide) rfl (by decide) rfl rfl (by decide) (by decide)).1,
    (categoriesFieldNotValidated exampleCfg exampleLocalState "sync_1" 200
      { prompts := some (.arr [⟨"c", "pc"⟩]), categories := some (.str "oops") }
      [⟨"c", "pc"⟩] (.str "oops")
      (by decide) rfl (by decide) rfl rfl (by decide) (by decide)).2⟩

/-- A local state whose prompts collection carries a duplicated id. -/
def dupLocalState : UiState :=
  { store := { prompts := some (.arr [⟨"a", "first"⟩, ⟨"a", "second"⟩])
               categories := some (.arr []) } }

/-- A downloaded document with within-collection-unique ids. -/
def smallUniqueDoc : SyncDoc :=
  { prompts := some (.arr [⟨"b", "remote"⟩]), categories := some (.arr []) }

/-- C8 as stated is refuted: the downloaded document's collections carry
unique ids, the append pull is accepted, yet the merged prompts contain two
entries with id `a`, because the claim puts no uniqueness requirement on
the local collections and the merge keeps the local entries verbatim. -/
theorem appendMergeDuplicateIdsCounterexample :
    (storedIds smallUniqueDoc.prompts).Nodup ∧
    (storedIds smallUniqueDoc.categories).Nodup ∧
    (syncFromWebDAV exampleCfg dupLocalState .append "sync_1"
        (.response 200 smallUniqueDoc)).result = .completed ∧
    (syncFromWebDAV exampleCfg dupLocalState .append "sync_1"
        (.response 200 smallUniqueDoc)).state.store.prompts
      = some (.arr [⟨"a", "first"⟩, ⟨"a", "second"⟩, ⟨"b", "remote"⟩]) ∧
    ¬ (storedIds (syncFromWebDAV exampleCfg dupLocalState .append "sync_1"
        (.response 200 smallUniqueDoc)).state.store.prompts).Nodup := by
  decide

/-- C8 amended: when the local collections, too, carry
within-collection-unique ids, an accepted append pull stores collections
with no two entries sharing an id. -/
theorem appendMergeNoDuplicateIds (cfg : Config) (s : UiState) (sid : String)
    (st : Nat) (doc : SyncDoc) (lp lc rp rc : List Entry)
    (hcfg : credentialsMissing cfg = false)
    (hidle : s.currentSyncId = none)
    (hok : respOk st = true)
    (hlp : s.store.prompts = some (.arr lp))
    (hlc : s.store.categories = some (.arr lc))
    (hrp : doc.prompts = some (.arr rp))
    (hrc : doc.categories = some (.arr rc) ∨ (doc.categories = none ∧ rc = []))
    (hlpnd : (lp.map Entry.id).Nodup) (hlcnd : (lc.map Entry.id).Nodup)
    (hrpnd : (rp.map Entry.id).Nodup) (hrcnd : (rc.map Entry.id).Nodup) :
    (storedIds (syncFromWebDAV cfg s .append sid
        (.response st doc)).state.store.prompts).Nodup ∧
    (storedIds (syncFromWebDAV cfg s .append sid
        (.response st doc)).state.store.categories).Nodup := by
  have hrc' : jorEmpty doc.categories = .arr rc := by
    rcases hrc with h | ⟨h, rfl⟩ <;> simp [h, jorEmpty, jtruthy]
  have h := syncFromWebDAV_append_run cfg s sid st doc lp lc rp rc
    hcfg hidle hok hlp hlc hrp hrc'
  rw [h.2.1, h.2.2]
  exact ⟨mergeById_nodup lp rp hlpnd hrpnd, mergeById_nodup lc rc hlcnd hrcnd⟩

/-- Witness for `appendMergeNoDuplicateIds` at the example state and
document (all four collections duplicate-free). -/
theorem appendMergeNoDuplicateIdsWitness :
    (([⟨"a", "pa"⟩, ⟨"b", "pb"⟩] : List Entry).map Entry.id).Nodup ∧
    (([⟨"b", "pb2"⟩, ⟨"c", "pc"⟩] : List Entry).map Entry.id).Nodup ∧
    (storedIds (syncFromWebDAV exampleCfg exampleLocalState .append "sync_1"
        (.response 200 exampleDoc)).state.store.prompts).Nodup ∧
    (storedIds (syncFromWebDAV exampleCfg exampleLocalState .append "sync_1"
        (.response 200 exampleDoc)).state.store.categories).Nodup :=
  ⟨by decide, by decide,
    (appendMergeNoDuplicateIds exampleCfg exampleLocalState "sync_1" 200 exampleDoc
      [⟨"a", "pa"⟩, ⟨"b", "pb"⟩] [⟨"k", "ck"⟩] [⟨"b", "pb2"⟩, ⟨"c", "pc"⟩]
      [⟨"k", "ck2"⟩, ⟨"m", "cm"⟩] (by decide) rfl (by decide) rfl rfl rfl
      (Or.inl rfl) (by decide) (by decide) (by decide) (by decide)).1,
    (appendMergeNoDuplicateIds exampleCfg exampleLocalState "sync_1" 200 exampleDoc
      [⟨"a", "pa"⟩, ⟨"b", "pb"⟩] [⟨"k", "ck"⟩] [⟨"b", "pb2"⟩, ⟨"c", "pc"⟩]
      [⟨"k", "ck2"⟩, ⟨"m", "cm"⟩] (by decide) rfl (by decide) rfl rfl rfl
      (Or.inl rfl) (by decide) (by decide) (by decide) (by decide)).2⟩

/-- C5: classification of download failures by a pull whose guards pass:
HTTP 404 yields the distinct remote-file-not-found error, any other non-ok
status yields an HTTP error carrying that status code, and an ok response
whose body lacks a `prompts` field or whose `prompts` is not an array
yields the distinct invalid-data-format error. -/
theorem downloadErrorClassification (cfg : Config) (s : UiState)
    (mode : MergeMode) (sid : String)
    (hcfg : credentialsMissing cfg = false)
    (hidle : s.currentSyncId = none) :
    (∀ body : SyncDoc,
      (syncFromWebDAV cfg s mode sid (.response 404 body)).result
        = .failed .fileNotFound) ∧
    (∀ (st : Nat) (body : SyncDoc), respOk st = false → st ≠ 404 →
      (syncFromWebDAV cfg s mode sid (.response st body)).result
        = .failed (.httpError st)) ∧
    (∀ (st : Nat) (body : SyncDoc), respOk st = true →
      (∀ xs : List Entry, body.prompts ≠ some (.arr xs)) →
      (syncFromWebDAV cfg s mode sid (.response st body)).result
        = .failed .invalidDataFormat) := by
  refine ⟨fun body => ?_, fun st body hok h404 => ?_, fun st body hok hbad => ?_⟩
  · simp [syncFromWebDAV, hcfg, hidle, respOk]
  · have h404b : (st == 404) = false := by
      simpa using h404
    simp [syncFromWebDAV, hcfg, hidle, hok, h404b]
  · rcases hp : body.prompts with _ | v
    · simp [syncFromWebDAV, hcfg, hidle, hok, hp]
    · cases v with
      | arr xs => exact absurd hp (hbad xs)
      | str t => simp [syncFromWebDAV, hcfg, hidle, hok, hp]
      | num n => simp [syncFromWebDAV, hcfg, hidle, hok, hp]
      | jbool b => simp [syncFromWebDAV, hcfg, hidle, hok, hp]
      | jnull => simp [syncFromWebDAV, hcfg, hidle, hok, hp]

/-- Witness for `downloadErrorClassification`: 404 yields file-not-found,
500 yields the HTTP error with code 500, and an ok body whose `prompts` is
a string yields the invalid-format error. -/
theorem downloadErrorClassificationWitness :
    credentialsMissing exampleCfg = false ∧
    (syncFromWebDAV exampleCfg exampleLocalState .replace "sync_1"
        (.response 404 {})).result = .failed .fileNotFound ∧
    (syncFromWebDAV exampleCfg exampleLocalState .replace "sync_1"
        (.response 500 {})).result = .failed (.httpError 500) ∧
    (syncFromWebDAV exampleCfg exampleLocalState .replace "sync_1"
        (.response 200 { prompts := some (.str "bad") })).result
      = .failed .invalidDataFormat :=
  ⟨by decide,
    (downloadErrorClassification exampleCfg exampleLocalState .replace "sync_1"
      (by decide) rfl).1 {},
    (downloadErrorClassification exampleCfg exampleLocalState .replace "sync_1"
      (by decide) rfl).2.1 500 {} (by decide) (by decide),
    (downloadErrorClassification exampleCfg exampleLocalState .replace "sync_1"
      (by decide) rfl).2.2 200 { prompts := some (.str "bad") } (by decide)
      (fun xs h => by simp at h)⟩

/-- C6: classification of the PROPFIND connectivity test, for any
credentials: a 2xx or 207 response yields success; 401 yields the
authentication-failure error; any other non-2xx status yields a server
error carrying the status code; a network-level failure yields an error
carrying the underlying transport error text. -/
theorem testConnectionClassification (url user pass : String) :
    (∀ (st : Nat) (body : SyncDoc), (respOk st || st == 207) = true →
      testWebDAVConnection url user pass (.response st body)
        = { success := true, error := none }) ∧
    (∀ body : SyncDoc, testWebDAVConnection url user pass (.response 401 body)
      = { success := false, error := some "webdavAuthFailed" }) ∧
    (∀ (st : Nat) (body : SyncDoc), respOk st = false → st ≠ 401 →
      testWebDAVConnection url user pass (.response st body)
        = { success := false
            error := some ("webdavConnectionFailed: " ++ toString st) }) ∧
    (∀ m : String, m ≠ "" → testWebDAVConnection url user pass (.failure m)
      = { success := false, error := some m }) := by
  refine ⟨fun st body h => ?_, fun body => ?_, fun st body hok h401 => ?_,
    fun m hm => ?_⟩
  · simp [testWebDAVConnection, h]
  · simp [testWebDAVConnection, respOk]
  · have h207 : st ≠ 207 := by
      intro h
      rw [h] at hok
      exact absurd hok (by decide)
    have h207b : (st == 207) = false := by simpa using h207
    have h401b : (st == 401) = false := by simpa using h401
    simp [testWebDAVConnection, hok, h207b, h401b]
  · simp [testWebDAVConnection, hm]

/-- Witness for `testConnectionClassification` at 207, 401, 503 and a
network failure with message `"ECONNREFUSED"`. -/
theorem testConnectionClassificationWitness :
    ((respOk 207 || 207 == 207) = true) ∧
    testWebDAVConnection "https://dav.example.com" "alice" "secret"
        (.response 207 {}) = { success := true, error := none } ∧
    testWebDAVConnection "https://dav.example.com" "alice" "secret"
        (.response 401 {})
      = { success := false, error := some "webdavAuthFailed" } ∧
    testWebDAVConnection "https://dav.example.com" "alice" "secret"
        (.response 503 {})
      = { success := false, error := some ("webdavConnectionFailed: " ++ toString 503) } ∧
    testWebDAVConnection "https://dav.example.com" "alice" "secret"
        (.failure "ECONNREFUSED")
      = { success := false, error := some "ECONNREFUSED" } :=
  ⟨by decide,
    (testConnectionClassification "https://dav.example.com" "alice" "secret").1
      207 {} (by decide),
    (testConnectionClassification "https://dav.example.com" "alice" "secret").2.1 {},
    (testConnectionClassification "https://dav.example.com" "alice" "secret").2.2.1
      503 {} (by decide) (by decide),
    (testConnectionClassification "https://dav.example.com" "alice" "secret").2.2.2
      "ECONNREFUSED" (by decide)⟩

/-- C9: a push or pull invoked with an empty server URL, username or
password returns the configuration error at once, leaving the state
untouched and performing no side effect beyond the error toast — in
particular no network request and no SyncStatus write for either
direction. -/
theorem missingCredentialsShortCircuit (cfg : Config) (s : UiState)
    (sid ts : String) (env : PushEnv) (mode : MergeMode) (out : FetchOutcome)
    (h : cfg.serverUrl = "" ∨ cfg.username = "" ∨ cfg.password = "") :
    handleSyncToWebDAV cfg s sid ts env
      = { state := s, events := [.toast "error" "webdavNotConfigured"]
          result := .notConfigured } ∧
    syncFromWebDAV cfg s mode sid out
      = { state := s, events := [.toast "error" "webdavNotConfigured"]
          result := .notConfigured } := by
  have hm : credentialsMissing cfg = true := by
    rcases h with h | h | h <;> simp [credentialsMissing, h]
  exact ⟨by simp [handleSyncToWebDAV, hm], by simp [syncFromWebDAV, hm]⟩

/-- Witness for `missingCredentialsShortCircuit` with an empty password:
both directions return the configuration error with the toast as their only
event, so no network request and no status write occur. -/
theorem missingCredentialsShortCircuitWitness :
    (("" : String) = "" ∨ ("alice" : String) = "" ∨ ("" : String) = "") ∧
    handleSyncToWebDAV { serverUrl := "", username := "alice", password := "" }
        exampleLocalState "sync_1" "t1" { putOutcome := .response 201 {} }
      = { state := exampleLocalState
          events := [.toast "error" "webdavNotConfigured"]
          result := .notConfigured } ∧
    syncFromWebDAV { serverUrl := "", username := "alice", password := "" }
        exampleLocalState .append "sync_1" (.response 200 {})
      = { state := exampleLocalState
          events := [.toast "error" "webdavNotConfigured"]
          result := .notConfigured } :=
  ⟨Or.inl rfl,
    (missingCredentialsShortCircuit
      { serverUrl := "", username := "alice", password := "" }
      exampleLocalState "sync_1" "t1" { putOutcome := .response 201 {} }
      .append (.response 200 {}) (Or.inl rfl)).1,
    (missingCredentialsShortCircuit
      { serverUrl := "", username := "alice", password := "" }
      exampleLocalState "sync_1" "t1" { putOutcome := .response 201 {} }
      .append (.response 200 {}) (Or.inl rfl)).2⟩

/-- Reduction of a push whose guards pass and whose PUT is accepted: it
completes, ends with the success record stored and polling started (the
current sync id set), and its PUT carried the document built from the
invocation-time collections. -/
lemma handleSyncToWebDAV_success_run (cfg : Config) (s : UiState)
    (sid ts : String) (env : PushEnv)
    (hcfg : credentialsMissing cfg = false)
    (hidle : s.currentSyncId = none)
    (hput : putAccepted env.putOutcome = true) :
    (handleSyncToWebDAV cfg s sid ts env).result = .completed ∧
    (handleSyncToWebDAV cfg s sid ts env).state
      = { store := { s.store with pushStatus := some (pushSuccessRecord sid) }
          currentSyncId := some sid } ∧
    Event.netRequest "PUT" (stripTrailingSlash cfg.serverUrl ++ cfg.syncPath)
        (some (uploadedDoc s ts))
      ∈ (handleSyncToWebDAV cfg s sid ts env).events := by
  refine ⟨?_, ?_, ?_⟩
  · simp [handleSyncToWebDAV, hcfg, hidle, hput]
  · simp [handleSyncToWebDAV, hcfg, hidle, hput, pushMidState]
  · by_cases hd : dirPathOf cfg.syncPath = "" <;>
      simp [handleSyncToWebDAV, hcfg, hidle, hput, hd, pushMidState, uploadedDoc]

/-- C7: pushing the local collections and then pulling in replace mode from
a remote that returns the document the push uploaded leaves the local
collections deep-equal to the uploaded prompts and categories.  The poll
tick between the two operations is the poller observing the push's terminal
status (which releases the in-flight id, as the source does). -/
theorem pushPullRoundTrip (cfg : Config) (s : UiState) (ps cs : List Entry)
    (sid1 sid2 ts : String) (env : PushEnv) (st : Nat)
    (hcfg : credentialsMissing cfg = false)
    (hidle : s.currentSyncId = none)
    (hlp : s.store.prompts = some (.arr ps))
    (hlc : s.store.categories = some (.arr cs))
    (hput : putAccepted env.putOutcome = true)
    (hget : respOk st = true) :
    (handleSyncToWebDAV cfg s sid1 ts env).result = .completed ∧
    Event.netRequest "PUT" (stripTrailingSlash cfg.serverUrl ++ cfg.syncPath)
        (some (uploadedDoc s ts))
      ∈ (handleSyncToWebDAV cfg s sid1 ts env).events ∧
    (syncFromWebDAV cfg
        (pollTick (handleSyncToWebDAV cfg s sid1 ts env).state pushStatusKey sid1)
        .replace sid2 (.response st (uploadedDoc s ts))).result = .completed ∧
    (syncFromWebDAV cfg
        (pollTick (handleSyncToWebDAV cfg s sid1 ts env).state pushStatusKey sid1)
        .replace sid2 (.response st (uploadedDoc s ts))).state.store.prompts
      = some (.arr ps) ∧
    (syncFromWebDAV cfg
        (pollTick (handleSyncToWebDAV cfg s sid1 ts env).state pushStatusKey sid1)
        .replace sid2 (.response st (uploadedDoc s ts))).state.store.categories
      = some (.arr cs) := by
  obtain ⟨hres, hstate, hmem⟩ :=
    handleSyncToWebDAV_success_run cfg s sid1 ts env hcfg hidle hput
  have hs1 : pollTick (handleSyncToWebDAV cfg s sid1 ts env).state pushStatusKey sid1
      = { store := { s.store with pushStatus := some (pushSuccessRecord sid1) }
          currentSyncId := none } := by
    rw [hstate]
    simp [pollTick, pushSuccessRecord]
  have hdp : (uploadedDoc s ts).prompts = some (.arr ps) := by
    simp [uploadedDoc, hlp, jorEmpty, jtruthy]
  have hdc : jorEmpty (uploadedDoc s ts).categories = .arr cs := by
    simp [uploadedDoc, hlc, jorEmpty, jtruthy]
  have h := syncFromWebDAV_replace_run cfg
    (pollTick (handleSyncToWebDAV cfg s sid1 ts env).state pushStatusKey sid1)
    sid2 st (uploadedDoc s ts) ps hcfg (by rw [hs1]) hget hdp
  rw [hdc] at h
  exact ⟨hres, hmem, h.1, h.2.1, h.2.2⟩

/-- Witness for `pushPullRoundTrip`: pushing the example collections with a
201 PUT and pulling them back with a 200 GET restores them exactly. -/
theorem pushPullRoundTripWitness :
    credentialsMissing exampleCfg = false ∧
    putAccepted (FetchOutcome.response 201 {}) = true ∧
    respOk 200 = true ∧
    (syncFromWebDAV exampleCfg
        (pollTick (handleSyncToWebDAV exampleCfg exampleLocalState "sync_1" "t1"
            { putOutcome := .response 201 {} }).state pushStatusKey "sync_1")
        .replace "sync_2"
        (.response 200 (uploadedDoc exampleLocalState "t1"))).state.store.prompts
      = some (.arr [⟨"a", "pa"⟩, ⟨"b", "pb"⟩]) ∧
    (syncFromWebDAV exampleCfg
        (pollTick (handleSyncToWebDAV exampleCfg exampleLocalState "sync_1" "t1"
            { putOutcome := .response 201 {} }).state pushStatusKey "sync_1")
        .replace "sync_2"
        (.response 200 (uploadedDoc exampleLocalState "t1"))).state.store.categories
      = some (.arr [⟨"k", "ck"⟩]) :=
  ⟨by decide, by decide, by decide,
    (pushPullRoundTrip exampleCfg exampleLocalState [⟨"a", "pa"⟩, ⟨"b", "pb"⟩]
      [⟨"k", "ck"⟩] "sync_1" "sync_2" "t1" { putOutcome := .response 201 {} } 200
      (by decide) rfl rfl rfl (by decide) (by decide)).2.2.2.1,
    (pushPullRoundTrip exampleCfg exampleLocalState [⟨"a", "pa"⟩, ⟨"b", "pb"⟩]
      [⟨"k", "ck"⟩] "sync_1" "sync_2" "t1" { putOutcome := .response 201 {} } 200
      (by decide) rfl rfl rfl (by decide) (by decide)).2.2.2.2⟩

/-- C2 is refuted on the code: in the state the push path itself creates
while its PUT is awaited — the in-progress record already written under
`webdav_sync_status`, but `currentSyncId` still null because
`startSyncStatusPolling` (the only place that sets it) runs only after the
upload completes — a second push invocation is not rejected: it passes the
`currentSyncId` guard, issues its own network requests and writes its own
status record. -/
theorem secondSyncDuringInFlightPushNotRejected :
    (pushMidState {} "sync_1").store.pushStatus
      = some { id := "sync_1", status := .in_progress
               message := some "syncingToWebDAVMessage" } ∧
    (pushMidState {} "sync_1").currentSyncId = none ∧
    (handleSyncToWebDAV exampleCfg (pushMidState {} "sync_1") "sync_2" "t2"
        { putOutcome := .response 201 {} }).result ≠ .alreadyRunning ∧
    issuesNetRequest (handleSyncToWebDAV exampleCfg (pushMidState {} "sync_1")
        "sync_2" "t2" { putOutcome := .response 201 {} }).events = true ∧
    writesStatusUnder (handleSyncToWebDAV exampleCfg (pushMidState {} "sync_1")
        "sync_2" "t2" { putOutcome := .response 201 {} }).events pushStatusKey
      = true := by
  decide

/-- C3 is refuted in part on the code: a push or pull that fails after its
in-progress record was written does report the error (an error toast
carrying the message) and performs no retry, but writes no terminal record:
the direction's SyncStatus stays `in_progress` and no record with status
`error` is written under any key. -/
theorem failedSyncLeavesInProgressRecord :
    (handleSyncToWebDAV exampleCfg {} "sync_1" "t1"
        { putOutcome := .response 500 {} }).result = .failed (.httpError 500) ∧
    (handleSyncToWebDAV exampleCfg {} "sync_1" "t1"
        { putOutcome := .response 500 {} }).state.store.pushStatus.map SyncStatus.status
      = some .in_progress ∧
    writesPhaseUnder (handleSyncToWebDAV exampleCfg {} "sync_1" "t1"
        { putOutcome := .response 500 {} }).events pushStatusKey .error = false ∧
    Event.toast "error" "syncToWebDAVFailed: HTTP 500"
      ∈ (handleSyncToWebDAV exampleCfg {} "sync_1" "t1"
        { putOutcome := .response 500 {} }).events ∧
    (syncFromWebDAV exampleCfg {} .replace "sync_2" (.response 500 {})).result
      = .failed (.httpError 500) ∧
    (syncFromWebDAV exampleCfg {} .replace "sync_2"
        (.response 500 {})).state.store.pullStatus.map SyncStatus.status
      = some .in_progress ∧
    writesPhaseUnder (syncFromWebDAV exampleCfg {} .replace "sync_2"
        (.response 500 {})).events pullStatusKey .error = false ∧
    Event.toast "error" "syncFromWebDAVFailed: HTTP 500"
      ∈ (syncFromWebDAV exampleCfg {} .replace "sync_2" (.response 500 {})).events := by
  decide

end QuickPrompt
